import Mathlib

/-!
Shallow embedding of the APIS device-control core (src/apis) in Lean 4:
the PPAAA protocol codec (`utils.format_command`), the serial command
channel with retry and exponential backoff
(`PicsController._send_raw_command`), the safety-state methods of
`PicsController`, and the capture-sequence orchestrator
(`PicsSequence.run_sequence`).

Modelling conventions:
* The serial device is represented by a script of read results
  (`SerialPort.reads`); each `readline` consumes one entry, and an
  exhausted script yields the empty line (the per-attempt read timeout).
  Scripted lines are pre-stripped, matching
  `readline().decode(...).strip()` in the source; an `ioError` entry
  models a serial I/O exception raised during the transaction.
* Wall-clock time is abstracted: sleeps are recorded (in milliseconds)
  rather than performed, so the 0.2 s backoff base becomes 200.
* Wire writes are accumulated in `SerialPort.writes` in order.
* `reset_input_buffer` (discarding stale input) is implicit: each
  transaction's reads come from its own position in the script.
-/

set_option maxHeartbeats 1000000

/-- Configuration constants from `apis/config.py` (the ones the modelled
core uses). -/
def MAX_RETRIES : Nat := 3

def CMD_POLARIZER : Nat := 10

def CMD_SAMPLE : Nat := 11

def CMD_HOME : Nat := 96

def CMD_RESET : Nat := 98

def CMD_ESTOP : Nat := 99

/-- Safety states, `config.STATE_LATCHED` / `config.STATE_ARMED` (the
source represents them as the strings "LATCHED" / "ARMED"). -/
inductive SafetyState where
  | Latched
  | Armed
deriving DecidableEq

/-- One scripted outcome of a `readline` call on the serial port:
either a (pre-stripped) line, or a serial I/O exception. -/
inductive ReadResult where
  | line (s : String)
  | ioError (msg : String)
deriving DecidableEq

/-- The serial line: open flag, the script of pending read results, the
accumulated wire writes, and the recorded backoff sleeps (ms). -/
structure SerialPort where
  is_open : Bool
  reads : List ReadResult
  writes : List String
  sleeps : List Nat
deriving DecidableEq

/-- `self.ser.readline()`: consume the next scripted read result; a
silent device (exhausted script) yields the empty line, i.e. the
blocking read returned nothing within its timeout. -/
def readline (ser : SerialPort) : ReadResult × SerialPort :=
  match ser.reads with
  | [] => (ReadResult.line "", ser)
  | r :: rest => (r, { ser with reads := rest })

/-- Decimal digit list of a natural number (big-endian), fuel-based so
that it reduces in the kernel.  `natDigitsCore fuel n` is correct for
`n < fuel`. -/
def natDigitsCore : Nat → Nat → List Char
  | 0, _ => []
  | fuel + 1, n =>
    if n < 10 then [Nat.digitChar n]
    else natDigitsCore fuel (n / 10) ++ [Nat.digitChar (n % 10)]

/-- Big-endian decimal digits of `n` (the digits Python's `d` format
prints). -/
def natDigits (n : Nat) : List Char :=
  natDigitsCore (n + 1) n

/-- Left-pad a digit list with '0' to width `w` — Python's `{:0wd}`
padding. -/
def padZeros (w : Nat) (ds : List Char) : List Char :=
  List.replicate (w - ds.length) '0' ++ ds

/-- `utils.format_command(pp, aaa)`: the Python f-string
`f"PP:02d AAA:03d"` — decimal, zero-padded to widths 2 and 3,
concatenated.  Note the source performs no range validation. -/
def format_command (pp aaa : Nat) : String :=
  String.mk (padZeros 2 (natDigits pp) ++ padZeros 3 (natDigits aaa))

/-- Numeric value of a digit character. -/
def digitVal (c : Char) : Nat := c.toNat - 48

/-- Value of a big-endian digit list, accumulator form. -/
def valOfDigitsAux (acc : Nat) : List Char → Nat
  | [] => acc
  | c :: cs => valOfDigitsAux (10 * acc + digitVal c) cs

/-- Value of a big-endian digit list (the decoder used to state that the
formatted token really encodes its arguments). -/
def valOfDigits (ds : List Char) : Nat := valOfDigitsAux 0 ds

/-- Python's `pat in s` substring test on strings. -/
def containsSubstring (s pat : String) : Bool :=
  decide (pat.data <:+: s.data)

/-- Python's `s.startswith(pat)` prefix test on strings. -/
def strStartsWith (s pat : String) : Bool :=
  decide (pat.data <+: s.data)

/-- The retry loop of `PicsController._send_raw_command`: `left` is the
number of attempts still allowed (`retry_count - attempt` in the
source), `attempt` the number of attempts already made.  Each iteration
writes the command, reads one line; an empty line is a timeout: count
it, record the exponential-backoff sleep `0.2 * 2 ^ (attempt - 1)` s
(post-increment `attempt`, i.e. `200 * 2 ^ attempt` ms here) and retry.
A non-empty line is returned as-is; an I/O error aborts the
transaction. -/
def sendRawLoop (cmd : String) : Nat → Nat → SerialPort → String × SerialPort
  | 0, _, ser => ("ERR TIMEOUT", ser)
  | left + 1, attempt, ser =>
    let ser1 : SerialPort := { ser with writes := ser.writes ++ [cmd ++ "\n"] }
    match readline ser1 with
    | (ReadResult.line resp, ser2) =>
      if resp = "" then
        sendRawLoop cmd left (attempt + 1)
          { ser2 with sleeps := ser2.sleeps ++ [200 * 2 ^ attempt] }
      else (resp, ser2)
    | (ReadResult.ioError msg, ser2) => ("ERR EXCEPTION " ++ msg, ser2)

/-- `PicsController._send_raw_command(pp, aaa, retry_count)` acting on
the serial port: refuse if the port is not open, else run the retry
loop starting at attempt 0. -/
def _send_raw_command (pp aaa retry_count : Nat) (ser : SerialPort) :
    String × SerialPort :=
  if ser.is_open then sendRawLoop (format_command pp aaa) retry_count 0 ser
  else ("ERR NO_CONNECTION", ser)

/-- `PicsController`: serial handle, connected flag, last known safety
state. -/
structure PicsController where
  ser : SerialPort
  is_connected : Bool
  last_state : SafetyState
deriving DecidableEq

namespace PicsController

/-- `PicsController.send_command`: send, log (logging is a no-op here),
return whether the response starts with "OK". -/
def send_command (c : PicsController) (pp aaa : Nat) : Bool × PicsController :=
  let (resp, ser) := _send_raw_command pp aaa MAX_RETRIES c.ser
  (strStartsWith resp "OK", { c with ser := ser })

/-- `PicsController.emergency_stop`: send ESTOP (99); on an
acknowledgement containing "OK ESTOP", latch and report success. -/
def emergency_stop (c : PicsController) : Bool × PicsController :=
  let (resp, ser) := _send_raw_command CMD_ESTOP 0 MAX_RETRIES c.ser
  if containsSubstring resp "OK ESTOP" then
    (true, { c with ser := ser, last_state := SafetyState.Latched })
  else (false, { c with ser := ser })

/-- `PicsController.reset`: send RESET (98); on an acknowledgement
containing "OK RESET", arm and report success. -/
def reset (c : PicsController) : Bool × PicsController :=
  let (resp, ser) := _send_raw_command CMD_RESET 0 MAX_RETRIES c.ser
  if containsSubstring resp "OK RESET" then
    (true, { c with ser := ser, last_state := SafetyState.Armed })
  else (false, { c with ser := ser })

/-- `PicsController.home`: rejected locally while LATCHED; otherwise
send HOME (96) and succeed iff the response contains "OK". -/
def home (c : PicsController) : Bool × PicsController :=
  if c.last_state = SafetyState.Latched then (false, c)
  else
    let (resp, ser) := _send_raw_command CMD_HOME 0 MAX_RETRIES c.ser
    (containsSubstring resp "OK", { c with ser := ser })

/-- `PicsController.rotate_polarizer`. -/
def rotate_polarizer (c : PicsController) (angle : Nat) : Bool × PicsController :=
  send_command c CMD_POLARIZER angle

/-- `PicsController.rotate_sample`. -/
def rotate_sample (c : PicsController) (angle : Nat) : Bool × PicsController :=
  send_command c CMD_SAMPLE angle

/-- `PicsController.connect`: open the port (fresh `SerialPort` whose
script is the device's behaviour), listen for the literal boot line
"READY" within the wait window (`bootLines` are the lines the device
emits inside that window; the loop sees READY iff one of them is
"READY"), and if the boot message is seen connect in LATCHED.
Otherwise force a RESET transaction; if its response contains
"OK RESET" connect in ARMED, else raise a connection error. -/
def connect (bootLines : List String) (script : List ReadResult) :
    Except String PicsController :=
  let ser : SerialPort := { is_open := true, reads := script, writes := [], sleeps := [] }
  if bootLines.contains "READY" then
    Except.ok { ser := ser, is_connected := true, last_state := SafetyState.Latched }
  else
    match _send_raw_command CMD_RESET 0 MAX_RETRIES ser with
    | (resp, ser) =>
      if containsSubstring resp "OK RESET" then
        Except.ok { ser := ser, is_connected := true, last_state := SafetyState.Armed }
      else
        Except.error ("Failed to connect. Response to RESET: " ++ resp)

end PicsController

/-!
The sequence orchestrator, `PicsSequence.run_sequence` (src/apis/sequence.py).

The collaborators are abstracted to the interfaces the orchestrator
uses, as oracles consumed in call order: `cmdResult i` is the boolean
outcome of the i-th controller command of the run (`reset`,
`rotate_polarizer`, `rotate_sample`, `home`, `emergency_stop` — all
serialized on the one line), `captureResult j` the outcome of the j-th
`camera.capture()` (an `Except.error` models the capture raising).
The cooperative abort flag, settable from another thread, is modelled
by `abortAt`: the abort checks of a run are numbered from 0, and the
flag is observed set at every check with index `≥ k` when
`abortAt = some k` (the flag is cleared at run start in the source).
`_wait_settling` is a sliced wait whose only modelled effect is its
abort observation, abstracted to a single check per settling wait.
File-system side calls (`utils.ensure_dir`, `io.save_image`,
`io.append_to_log` and the path strings fed to them) are I/O shims
recorded as events.
-/

/-- The event trace of one orchestrator run (camera, controller and
persistence side effects, in order). -/
inductive SeqEvent where
  | stopLive
  | resumeLive
  | setExposure (us : Nat)
  | cmdReset (ok : Bool)
  | cmdPolarizer (angle : Nat) (ok : Bool)
  | cmdSample (angle : Nat) (ok : Bool)
  | cmdHome (ok : Bool)
  | cmdEstop (ok : Bool)
  | capture (img : Nat)
  | saveImage (mode : String) (angle : Nat)
  | logRecord (mode : String) (angle : Nat)
deriving DecidableEq

/-- The exceptions `run_sequence` distinguishes: `InterruptedError`
raised by `_check_abort`, and every other exception (`RuntimeError`
from rejected commands, camera errors, I/O errors), carrying its
message. -/
inductive SeqError where
  | interrupted (msg : String)
  | runtimeError (msg : String)
deriving DecidableEq

/-- The collaborator oracles of one run (see the section comment). -/
structure SeqEnv where
  cmdResult : Nat → Bool
  captureResult : Nat → Except String Nat
  abortAt : Option Nat

/-- Running state of the orchestrator: oracles, how many controller
commands / captures / abort checks have happened, and the event trace. -/
structure SeqState where
  env : SeqEnv
  cmdIdx : Nat
  capIdx : Nat
  checks : Nat
  events : List SeqEvent

namespace PicsSequence

/-- Append one event to the trace. -/
def emitEvent (e : SeqEvent) (s : SeqState) : SeqState :=
  { s with events := s.events ++ [e] }

/-- Is the abort flag observed set at the current check index? -/
def abortObserved (s : SeqState) : Bool :=
  match s.env.abortAt with
  | none => false
  | some k => k ≤ s.checks

/-- `PicsSequence._check_abort`: raise `InterruptedError` if the abort
flag is set. -/
def checkAbort (s : SeqState) : SeqState × Option SeqError :=
  let flag := abortObserved s
  let s := { s with checks := s.checks + 1 }
  if flag then (s, some (SeqError.interrupted "Sequence aborted by user.")) else (s, none)

/-- `PicsSequence._wait_settling`: sliced wait; its modelled effect is
one abort observation. -/
def wait_settling (s : SeqState) : SeqState × Option SeqError :=
  checkAbort s

/-- Sequence two failable steps: stop at the first error
(exception propagation). -/
def seqThen (r : SeqState × Option SeqError)
    (f : SeqState → SeqState × Option SeqError) : SeqState × Option SeqError :=
  match r with
  | (s, none) => f s
  | (s, some e) => (s, some e)

/-- One controller command at orchestrator level: consume the next
command-result oracle entry and record the call. -/
def seqCmd (mk : Bool → SeqEvent) (s : SeqState) : Bool × SeqState :=
  let ok := s.env.cmdResult s.cmdIdx
  (ok, emitEvent (mk ok) { s with cmdIdx := s.cmdIdx + 1 })

/-- `camera.capture()`: consume the next capture oracle entry; an error
entry models the capture raising. -/
def camCapture (s : SeqState) : SeqState × Option SeqError :=
  match s.env.captureResult s.capIdx with
  | Except.ok img => (emitEvent (SeqEvent.capture img) { s with capIdx := s.capIdx + 1 }, none)
  | Except.error msg => ({ s with capIdx := s.capIdx + 1 }, some (SeqError.runtimeError msg))

/-- One Crosspol per-angle iteration: abort check; move the sample
(retrying exactly once on failure, a second failure is fatal); settle;
capture; save the image; append the CSV record. -/
def crosspolAngleStep (angle : Nat) (s : SeqState) : SeqState × Option SeqError :=
  seqThen (checkAbort s) fun s =>
    let (ok, s) := seqCmd (SeqEvent.cmdSample angle) s
    let moved : SeqState × Option SeqError :=
      if ok then (s, none)
      else
        let (ok2, s) := seqCmd (SeqEvent.cmdSample angle) s
        if ok2 then (s, none)
        else (s, some (SeqError.runtimeError ("Failed moving sample to " ++ toString angle)))
    seqThen moved fun s =>
      seqThen (wait_settling s) fun s =>
        seqThen (camCapture s) fun s =>
          (emitEvent (SeqEvent.logRecord "crosspol" angle)
            (emitEvent (SeqEvent.saveImage "crosspol" angle) s), none)

/-- One Normal per-angle iteration: abort check; move the sample (a
single failure is immediately fatal — no retry in this phase); settle;
capture; save; log. -/
def normalAngleStep (angle : Nat) (s : SeqState) : SeqState × Option SeqError :=
  seqThen (checkAbort s) fun s =>
    let (ok, s) := seqCmd (SeqEvent.cmdSample angle) s
    if ok then
      seqThen (wait_settling s) fun s =>
        seqThen (camCapture s) fun s =>
          (emitEvent (SeqEvent.logRecord "normal" angle)
            (emitEvent (SeqEvent.saveImage "normal" angle) s), none)
    else (s, some (SeqError.runtimeError ("Failed moving sample to " ++ toString angle)))

/-- Iterate a per-angle step over the configured angles in order. -/
def runAngles (step : Nat → SeqState → SeqState × Option SeqError) :
    List Nat → SeqState → SeqState × Option SeqError
  | [], s => (s, none)
  | a :: rest, s => seqThen (step a s) (runAngles step rest)

/-- Phase 1 (Crosspol): set the crosspol exposure, move the polarizer
to 90 (failure is fatal), settle, then run every angle. -/
def crosspolPhase (crosspol_exposure_us : Nat) (angles : List Nat) (s : SeqState) :
    SeqState × Option SeqError :=
  let s := emitEvent (SeqEvent.setExposure crosspol_exposure_us) s
  let (ok, s) := seqCmd (SeqEvent.cmdPolarizer 90) s
  if ok then seqThen (wait_settling s) (runAngles crosspolAngleStep angles)
  else (s, some (SeqError.runtimeError "Failed to move Polarizer to 90."))

/-- Phase 2 (Normal): set the normal exposure, move the polarizer to 0
(failure is fatal), settle, then run every angle. -/
def normalPhase (normal_exposure_us : Nat) (angles : List Nat) (s : SeqState) :
    SeqState × Option SeqError :=
  let s := emitEvent (SeqEvent.setExposure normal_exposure_us) s
  let (ok, s) := seqCmd (SeqEvent.cmdPolarizer 0) s
  if ok then seqThen (wait_settling s) (runAngles normalAngleStep angles)
  else (s, some (SeqError.runtimeError "Failed to move Polarizer to 0."))

/-- The body of the `try` block of `run_sequence`: connectivity check,
pause live view, arm via RESET (failure fatal), the enabled phases in
fixed order, then a best-effort HOME whose result is ignored.
(Directory preparation is an I/O shim with no modelled effect.) -/
def run_body (crosspol_exposure_us normal_exposure_us : Nat) (angles : List Nat)
    (do_crosspol do_normal connected : Bool) (s : SeqState) :
    SeqState × Option SeqError :=
  if !connected then (s, some (SeqError.runtimeError "Controller not connected."))
  else
    let s := emitEvent SeqEvent.stopLive s
    let (ok, s) := seqCmd SeqEvent.cmdReset s
    if !ok then (s, some (SeqError.runtimeError "Failed to ARM system (RESET command failed)."))
    else
      seqThen (if do_crosspol then crosspolPhase crosspol_exposure_us angles s else (s, none))
        fun s =>
          seqThen (if do_normal then normalPhase normal_exposure_us angles s else (s, none))
            fun s =>
              let (_, s) := seqCmd SeqEvent.cmdHome s
              (s, none)

/-- Which handler terminated the run. -/
inductive TermState where
  | done
  | aborted
  | failed (msg : String)
deriving DecidableEq

/-- Observable outcome of one `run_sequence` call: the event trace, the
terminal state, and what (if anything) propagates to the caller as an
exception. -/
structure RunReport where
  events : List SeqEvent
  term : TermState
  raised : Option String
deriving DecidableEq

/-- `PicsSequence.run_sequence`: default angles; reject a run with no
enabled mode (raised before the `try` block, so no handler and no
`finally` cleanup runs); otherwise run the body and dispatch on its
outcome exactly as the source's handlers do — normal completion
returns; `InterruptedError` is caught, logged ("Sequence Aborted!") and
swallowed; any other exception triggers `emergency_stop()` and is
re-raised.  The `finally` block resumes camera live view on every path
through the `try`. -/
def run_sequence (env : SeqEnv) (crosspol_exposure_us normal_exposure_us : Nat)
    (sample_angles : Option (List Nat)) (do_crosspol do_normal connected : Bool) :
    RunReport :=
  let angles := sample_angles.getD [90, 60, 45, 30, 0]
  if !(do_crosspol || do_normal) then
    { events := [], term := TermState.failed "No modes enabled for sequence.",
      raised := some "No modes enabled for sequence." }
  else
    let s0 : SeqState := { env := env, cmdIdx := 0, capIdx := 0, checks := 0, events := [] }
    match run_body crosspol_exposure_us normal_exposure_us angles do_crosspol do_normal
        connected s0 with
    | (s, none) =>
      { events := (emitEvent SeqEvent.resumeLive s).events, term := TermState.done,
        raised := none }
    | (s, some (SeqError.interrupted _)) =>
      { events := (emitEvent SeqEvent.resumeLive s).events, term := TermState.aborted,
        raised := none }
    | (s, some (SeqError.runtimeError msg)) =>
      let (_, s) := seqCmd SeqEvent.cmdEstop s
      { events := (emitEvent SeqEvent.resumeLive s).events, term := TermState.failed msg,
        raised := some msg }

/-- Oracle under which every controller command and every capture
succeeds and no abort is requested. -/
def allOkEnv : SeqEnv :=
  { cmdResult := fun _ => true, captureResult := fun _ => Except.ok 0, abortAt := none }

/-- The four events of one successful Crosspol angle iteration. -/
def crosspolBlock (angle : Nat) : List SeqEvent :=
  [SeqEvent.cmdSample angle true, SeqEvent.capture 0,
   SeqEvent.saveImage "crosspol" angle, SeqEvent.logRecord "crosspol" angle]

/-- The four events of one successful Normal angle iteration. -/
def normalBlock (angle : Nat) : List SeqEvent :=
  [SeqEvent.cmdSample angle true, SeqEvent.capture 0,
   SeqEvent.saveImage "normal" angle, SeqEvent.logRecord "normal" angle]

/-- The full expected trace of an all-success two-phase run. -/
def expectedTrace (crosspol_exposure_us normal_exposure_us : Nat) (angles : List Nat) :
    List SeqEvent :=
  [SeqEvent.stopLive, SeqEvent.cmdReset true,
   SeqEvent.setExposure crosspol_exposure_us, SeqEvent.cmdPolarizer 90 true]
  ++ angles.flatMap crosspolBlock
  ++ [SeqEvent.setExposure normal_exposure_us, SeqEvent.cmdPolarizer 0 true]
  ++ angles.flatMap normalBlock
  ++ [SeqEvent.cmdHome true, SeqEvent.resumeLive]

/-- Oracle under which every controller command is rejected (a silent
or failing device) and no abort is requested. -/
def failingCmdEnv : SeqEnv :=
  { cmdResult := fun _ => false, captureResult := fun _ => Except.ok 0, abortAt := none }

/-- Oracle for an abort requested before the first abort check: every
command and capture would succeed, but the flag is observed set at
check 0. -/
def abortRequestedEnv : SeqEnv :=
  { cmdResult := fun _ => true, captureResult := fun _ => Except.ok 0, abortAt := some 0 }

/-- Oracle for a Normal-phase single move failure: command 2 (the first
sample move of a `do_normal`-only run, after RESET and the polarizer
move) fails, every other command — including the one a retry would
consume — succeeds. -/
def normalMoveFailEnv : SeqEnv :=
  { cmdResult := fun i => i != 2, captureResult := fun _ => Except.ok 0, abortAt := none }

/-- Event classifier: camera capture events. -/
def isCaptureEv : SeqEvent → Bool
  | SeqEvent.capture _ => true
  | _ => false

/-- Event classifier: CSV log-record events. -/
def isLogEv : SeqEvent → Bool
  | SeqEvent.logRecord _ _ => true
  | _ => false

/-- Event classifier: emergency-stop commands. -/
def isEstopEv : SeqEvent → Bool
  | SeqEvent.cmdEstop _ => true
  | _ => false

/-- Event classifier: live-view resume notifications. -/
def isResumeEv : SeqEvent → Bool
  | SeqEvent.resumeLive => true
  | _ => false

end PicsSequence

/-!
Theorems.
-/

/-- If `pat` occurs in `s` but evaluating `pat` in the empty string is
false, `s` is not the empty string (used to rule out the timeout branch
when an acknowledgement was read). -/
theorem ne_empty_of_contains (s pat : String)
    (h : containsSubstring s pat = true)
    (hpat : containsSubstring "" pat = false) : s ≠ "" := by
  intro he
  subst he
  rw [h] at hpat
  exact absurd hpat (by decide)

/-- Claim C4: whenever `home()` is called while the safety state is
`Latched`, it returns failure, nothing is written to the wire (no
transaction is started), and the safety state is unchanged. -/
theorem home_latched_rejected (c : PicsController)
    (h : c.last_state = SafetyState.Latched) :
    PicsController.home c = (false, c) ∧
    (PicsController.home c).2.ser.writes = c.ser.writes ∧
    (PicsController.home c).2.last_state = SafetyState.Latched := by
  have hh : PicsController.home c = (false, c) := by
    unfold PicsController.home
    rw [if_pos h]
  exact ⟨hh, by rw [hh], by rw [hh]; exact h⟩

/-- Witness for C4. -/
theorem home_latched_rejected_witness :
    (PicsController.home
      { ser := { is_open := true, reads := [ReadResult.line "OK HOME"], writes := [], sleeps := [] },
        is_connected := true, last_state := SafetyState.Latched }).1 = false := by
  have h := home_latched_rejected
    { ser := { is_open := true, reads := [ReadResult.line "OK HOME"], writes := [], sleeps := [] },
      is_connected := true, last_state := SafetyState.Latched } rfl
  rw [h.1]

/-- Claim C10: for every typed command issued while the serial line is
not open, the operation returns a boolean failure (a value, not an
exception — the model is a total function), nothing is written to the
wire, and the controller (in particular its safety state) is
unchanged. -/
theorem send_command_closed_port (c : PicsController) (pp aaa angle : Nat)
    (h : c.ser.is_open = false) :
    PicsController.send_command c pp aaa = (false, c) ∧
    PicsController.rotate_polarizer c angle = (false, c) ∧
    PicsController.rotate_sample c angle = (false, c) := by
  have hsend : ∀ p a : Nat, PicsController.send_command c p a = (false, c) := by
    intro p a
    unfold PicsController.send_command _send_raw_command
    rw [h]
    simp
    decide
  exact ⟨hsend pp aaa, hsend CMD_POLARIZER angle, hsend CMD_SAMPLE angle⟩

/-- Witness for C10. -/
theorem send_command_closed_port_witness :
    PicsController.send_command
      { ser := { is_open := false, reads := [ReadResult.line "OK"], writes := [], sleeps := [] },
        is_connected := false, last_state := SafetyState.Armed } 10 90 =
      (false,
        { ser := { is_open := false, reads := [ReadResult.line "OK"], writes := [], sleeps := [] },
          is_connected := false, last_state := SafetyState.Armed }) :=
  (send_command_closed_port
    { ser := { is_open := false, reads := [ReadResult.line "OK"], writes := [], sleeps := [] },
      is_connected := false, last_state := SafetyState.Armed } 10 90 0 rfl).1

/-- Backoff sleeps of `count` consecutive timeouts, the first one at
attempt index `attempt`: `200 * 2 ^ attempt, 200 * 2 ^ (attempt+1), …`
milliseconds. -/
theorem backoff_shift (count attempt : Nat) :
    (List.range (count + 1)).map (fun i => 200 * 2 ^ (attempt + i)) =
      200 * 2 ^ attempt ::
        (List.range count).map (fun i => 200 * 2 ^ (attempt + 1 + i)) := by
  rw [List.range_succ_eq_map, List.map_cons, List.map_map]
  refine congrArg₂ _ (by rw [Nat.add_zero]) ?_
  exact List.map_congr_left fun i _ => by
    show 200 * 2 ^ (attempt + (i + 1)) = 200 * 2 ^ (attempt + 1 + i)
    have he : attempt + (i + 1) = attempt + 1 + i := by omega
    rw [he]

/-- The retry loop on a device that yields `count` empty reads and then
the non-empty line `r`: returns `r`, having written the command
`count + 1` times and slept the exponential backoffs in between. -/
theorem sendRawLoop_response (cmd r : String) (rest : List ReadResult) (hr : r ≠ "") :
    ∀ (count left attempt : Nat) (ser : SerialPort), count < left →
    ser.reads = List.replicate count (ReadResult.line "") ++ ReadResult.line r :: rest →
    sendRawLoop cmd left attempt ser =
      (r, { ser with
            reads := rest,
            writes := ser.writes ++ List.replicate (count + 1) (cmd ++ "\n"),
            sleeps := ser.sleeps ++ (List.range count).map (fun i => 200 * 2 ^ (attempt + i)) })
  | 0, left, attempt, ser, hlt, hreads => by
    obtain ⟨l, rfl⟩ : ∃ l, left = l + 1 := ⟨left - 1, by omega⟩
    unfold sendRawLoop readline
    simp only [List.replicate, List.nil_append] at hreads
    simp only [hreads]
    rw [if_neg hr]
    simp
  | count + 1, left, attempt, ser, hlt, hreads => by
    obtain ⟨l, rfl⟩ : ∃ l, left = l + 1 := ⟨left - 1, by omega⟩
    rw [List.replicate_succ, List.cons_append] at hreads
    simp only [sendRawLoop, readline, hreads]
    rw [if_pos trivial]
    rw [sendRawLoop_response cmd r rest hr count l (attempt + 1)
      { ser with
        reads := List.replicate count (ReadResult.line "") ++ ReadResult.line r :: rest,
        writes := ser.writes ++ [cmd ++ "\n"],
        sleeps := ser.sleeps ++ [200 * 2 ^ attempt] }
      (by omega) rfl]
    rw [backoff_shift]
    simp [List.replicate_succ]

/-- The retry loop on a device that yields only empty reads: after
`left` write attempts and `left` backoff sleeps it gives up with the
sentinel "ERR TIMEOUT". -/
theorem sendRawLoop_exhausted (cmd : String) (rest : List ReadResult) :
    ∀ (left attempt : Nat) (ser : SerialPort),
    ser.reads = List.replicate left (ReadResult.line "") ++ rest →
    sendRawLoop cmd left attempt ser =
      ("ERR TIMEOUT", { ser with
        reads := rest,
        writes := ser.writes ++ List.replicate left (cmd ++ "\n"),
        sleeps := ser.sleeps ++ (List.range left).map (fun i => 200 * 2 ^ (attempt + i)) })
  | 0, attempt, ser, hreads => by
    simp only [List.replicate, List.nil_append] at hreads
    unfold sendRawLoop
    simp [← hreads]
  | left + 1, attempt, ser, hreads => by
    rw [List.replicate_succ, List.cons_append] at hreads
    simp only [sendRawLoop, readline, hreads]
    rw [if_pos trivial]
    rw [sendRawLoop_exhausted cmd rest left (attempt + 1)
      { ser with
        reads := List.replicate left (ReadResult.line "") ++ rest,
        writes := ser.writes ++ [cmd ++ "\n"],
        sleeps := ser.sleeps ++ [200 * 2 ^ attempt] } rfl]
    rw [backoff_shift]
    simp [List.replicate_succ]

/-- The retry loop on a device that yields `count` empty reads and then
raises a serial I/O exception: the transaction aborts immediately with
the exception sentinel, after `count + 1` writes. -/
theorem sendRawLoop_ioError (cmd msg : String) (rest : List ReadResult) :
    ∀ (count left attempt : Nat) (ser : SerialPort), count < left →
    ser.reads = List.replicate count (ReadResult.line "") ++ ReadResult.ioError msg :: rest →
    sendRawLoop cmd left attempt ser =
      ("ERR EXCEPTION " ++ msg, { ser with
        reads := rest,
        writes := ser.writes ++ List.replicate (count + 1) (cmd ++ "\n"),
        sleeps := ser.sleeps ++ (List.range count).map (fun i => 200 * 2 ^ (attempt + i)) })
  | 0, left, attempt, ser, hlt, hreads => by
    obtain ⟨l, rfl⟩ : ∃ l, left = l + 1 := ⟨left - 1, by omega⟩
    unfold sendRawLoop readline
    simp only [List.replicate, List.nil_append] at hreads
    simp only [hreads]
    simp
  | count + 1, left, attempt, ser, hlt, hreads => by
    obtain ⟨l, rfl⟩ : ∃ l, left = l + 1 := ⟨left - 1, by omega⟩
    rw [List.replicate_succ, List.cons_append] at hreads
    simp only [sendRawLoop, readline, hreads]
    rw [if_pos trivial]
    rw [sendRawLoop_ioError cmd msg rest count l (attempt + 1)
      { ser with
        reads := List.replicate count (ReadResult.line "") ++ ReadResult.ioError msg :: rest,
        writes := ser.writes ++ [cmd ++ "\n"],
        sleeps := ser.sleeps ++ [200 * 2 ^ attempt] }
      (by omega) rfl]
    rw [backoff_shift]
    simp [List.replicate_succ]

/-- Claim C3: from every prior safety state, when `emergency_stop()`
reads a device acknowledgement (a first response line containing
"OK ESTOP"), it sets the safety state to `Latched` and returns
success (having written the single ESTOP token "99000"). -/
theorem emergency_stop_ack (c : PicsController) (r : String) (rest : List ReadResult)
    (hopen : c.ser.is_open = true)
    (hreads : c.ser.reads = ReadResult.line r :: rest)
    (hack : containsSubstring r "OK ESTOP" = true) :
    PicsController.emergency_stop c =
      (true,
        { c with
            ser := { c.ser with reads := rest, writes := c.ser.writes ++ ["99000\n"] },
            last_state := SafetyState.Latched }) := by
  have hr : r ≠ "" := ne_empty_of_contains r "OK ESTOP" hack (by decide)
  have hraw : _send_raw_command CMD_ESTOP 0 MAX_RETRIES c.ser =
      (r, { c.ser with reads := rest, writes := c.ser.writes ++ ["99000\n"] }) := by
    unfold _send_raw_command
    rw [hopen]
    simp only [if_true]
    have h0 := sendRawLoop_response (format_command CMD_ESTOP 0) r rest hr 0 MAX_RETRIES 0
      c.ser (by decide) (by simpa using hreads)
    simpa using h0
  unfold PicsController.emergency_stop
  rw [hraw]
  simp only [hack, if_true]

/-- Witness for C3: an armed controller whose device acknowledges ESTOP
ends up Latched with success. -/
theorem emergency_stop_ack_witness :
    PicsController.emergency_stop
      { ser := { is_open := true, reads := [ReadResult.line "OK ESTOP"], writes := [], sleeps := [] },
        is_connected := true, last_state := SafetyState.Armed } =
      (true,
        { ser := { is_open := true, reads := [], writes := ["99000\n"], sleeps := [] },
          is_connected := true, last_state := SafetyState.Latched }) :=
  emergency_stop_ack
    { ser := { is_open := true, reads := [ReadResult.line "OK ESTOP"], writes := [], sleeps := [] },
      is_connected := true, last_state := SafetyState.Armed }
    "OK ESTOP" [] rfl rfl (by decide)

/-- A full transaction on an open port whose device yields `N` empty
reads then the non-empty response `r`, with `N` below the retry
budget. -/
theorem send_raw_response (pp aaa M N : Nat) (r : String) (rest : List ReadResult)
    (ser : SerialPort) (hopen : ser.is_open = true) (hlt : N < M) (hr : r ≠ "")
    (hreads : ser.reads = List.replicate N (ReadResult.line "") ++ ReadResult.line r :: rest) :
    _send_raw_command pp aaa M ser =
      (r, { ser with
            reads := rest,
            writes := ser.writes ++ List.replicate (N + 1) (format_command pp aaa ++ "\n"),
            sleeps := ser.sleeps ++ (List.range N).map (fun i => 200 * 2 ^ i) }) := by
  unfold _send_raw_command
  rw [if_pos hopen]
  have h := sendRawLoop_response (format_command pp aaa) r rest hr N M 0 ser hlt hreads
  simpa using h

/-- A full transaction on an open port whose device yields only empty
reads: the budget is exhausted and the sentinel is returned. -/
theorem send_raw_timeout (pp aaa M : Nat) (rest : List ReadResult) (ser : SerialPort)
    (hopen : ser.is_open = true)
    (hreads : ser.reads = List.replicate M (ReadResult.line "") ++ rest) :
    _send_raw_command pp aaa M ser =
      ("ERR TIMEOUT", { ser with
        reads := rest,
        writes := ser.writes ++ List.replicate M (format_command pp aaa ++ "\n"),
        sleeps := ser.sleeps ++ (List.range M).map (fun i => 200 * 2 ^ i) }) := by
  unfold _send_raw_command
  rw [if_pos hopen]
  have h := sendRawLoop_exhausted (format_command pp aaa) rest M 0 ser hreads
  simpa using h

/-- A full transaction on an open port whose device yields `N` empty
reads and then raises a serial I/O exception. -/
theorem send_raw_exception (pp aaa M N : Nat) (msg : String) (rest : List ReadResult)
    (ser : SerialPort) (hopen : ser.is_open = true) (hlt : N < M)
    (hreads : ser.reads =
      List.replicate N (ReadResult.line "") ++ ReadResult.ioError msg :: rest) :
    _send_raw_command pp aaa M ser =
      ("ERR EXCEPTION " ++ msg, { ser with
        reads := rest,
        writes := ser.writes ++ List.replicate (N + 1) (format_command pp aaa ++ "\n"),
        sleeps := ser.sleeps ++ (List.range N).map (fun i => 200 * 2 ^ i) }) := by
  unfold _send_raw_command
  rw [if_pos hopen]
  have h := sendRawLoop_ioError (format_command pp aaa) msg rest N M 0 ser hlt hreads
  simpa using h

/-- Claim C5: a command transaction with max attempts `M` on a device
that yields `N` empty reads then a non-empty response `r` (`N < M`)
returns `r` after exactly `N + 1` writes of the command token, sleeping
`200 * 2 ^ (attempt - 1)` ms between attempts; and if all `M` reads are
empty, exactly `M` writes occur and the sentinel "ERR TIMEOUT" is
returned, which classifies as a failure (not an "OK" acknowledgement). -/
theorem send_raw_retry_behaviour :
    (∀ (pp aaa M N : Nat) (r : String) (rest : List ReadResult) (ser : SerialPort),
      ser.is_open = true → N < M → r ≠ "" →
      ser.reads = List.replicate N (ReadResult.line "") ++ ReadResult.line r :: rest →
      _send_raw_command pp aaa M ser =
        (r, { ser with
              reads := rest,
              writes := ser.writes ++ List.replicate (N + 1) (format_command pp aaa ++ "\n"),
              sleeps := ser.sleeps ++ (List.range N).map (fun i => 200 * 2 ^ i) })) ∧
    (∀ (pp aaa M : Nat) (rest : List ReadResult) (ser : SerialPort),
      ser.is_open = true →
      ser.reads = List.replicate M (ReadResult.line "") ++ rest →
      _send_raw_command pp aaa M ser =
        ("ERR TIMEOUT", { ser with
          reads := rest,
          writes := ser.writes ++ List.replicate M (format_command pp aaa ++ "\n"),
          sleeps := ser.sleeps ++ (List.range M).map (fun i => 200 * 2 ^ i) }) ∧
      strStartsWith "ERR TIMEOUT" "OK" = false) := by
  constructor
  · intro pp aaa M N r rest ser hopen hlt hr hreads
    exact send_raw_response pp aaa M N r rest ser hopen hlt hr hreads
  · intro pp aaa M rest ser hopen hreads
    exact ⟨send_raw_timeout pp aaa M rest ser hopen hreads, by decide⟩

/-- Witness for C5: two empty reads then "OK 11 045" gives the response
after 3 writes with backoff sleeps 200 ms and 400 ms; three empty reads
exhaust the budget after exactly 3 writes. -/
theorem send_raw_retry_behaviour_witness :
    _send_raw_command 11 45 3
      { is_open := true,
        reads := [ReadResult.line "", ReadResult.line "", ReadResult.line "OK 11 045"],
        writes := [], sleeps := [] } =
      ("OK 11 045",
        { is_open := true, reads := [],
          writes := ["11045\n", "11045\n", "11045\n"], sleeps := [200, 400] }) ∧
    _send_raw_command 11 45 3
      { is_open := true,
        reads := [ReadResult.line "", ReadResult.line "", ReadResult.line ""],
        writes := [], sleeps := [] } =
      ("ERR TIMEOUT",
        { is_open := true, reads := [],
          writes := ["11045\n", "11045\n", "11045\n"], sleeps := [200, 400, 800] }) :=
  ⟨send_raw_retry_behaviour.1 11 45 3 2 "OK 11 045" []
      { is_open := true,
        reads := [ReadResult.line "", ReadResult.line "", ReadResult.line "OK 11 045"],
        writes := [], sleeps := [] } rfl (by decide) (by decide) rfl,
   (send_raw_retry_behaviour.2 11 45 3 []
      { is_open := true,
        reads := [ReadResult.line "", ReadResult.line "", ReadResult.line ""],
        writes := [], sleeps := [] } rfl rfl).1⟩

/-- Counterexample to C6 as stated: with no boot message and a device
that times out once before acknowledging RESET, `connect()` succeeds in
`Armed` — but the RESET token was written twice on the wire, not
exactly once. -/
theorem connect_two_reset_writes :
    PicsController.connect [] [ReadResult.line "", ReadResult.line "OK RESET"] =
      Except.ok
        { ser := { is_open := true, reads := [], writes := ["98000\n", "98000\n"], sleeps := [200] },
          is_connected := true, last_state := SafetyState.Armed } ∧
    ["98000\n", "98000\n"].length ≠ 1 :=
  ⟨rfl, by decide⟩

/-- Claim C6 (amended): if the device emits the literal "READY" line
within the wait window, `connect()` succeeds in `Latched` with nothing
written on the wire; otherwise it performs exactly one RESET
transaction, writing the RESET token "98000" once per retry attempt
(`N + 1 ≤ MAX_RETRIES` times when the device yields `N` empty reads
before the transaction's outcome).  If the transaction's response
acknowledges (contains "OK RESET") the state is `Armed` and `connect()`
succeeds; otherwise `connect()` fails with a connection error echoing
the transaction's response — whether the response is a non-acknowledging
line, the "ERR EXCEPTION" sentinel of a serial I/O exception (when that
sentinel does not itself contain the acknowledgement), or the
"ERR TIMEOUT" sentinel after every attempt timed out. -/
theorem connect_handshake :
    (∀ (bootLines : List String) (script : List ReadResult),
      bootLines.contains "READY" = true →
      PicsController.connect bootLines script =
        Except.ok
          { ser := { is_open := true, reads := script, writes := [], sleeps := [] },
            is_connected := true, last_state := SafetyState.Latched }) ∧
    (∀ (bootLines : List String) (N : Nat) (r : String) (rest : List ReadResult),
      bootLines.contains "READY" = false → N < MAX_RETRIES → r ≠ "" →
      containsSubstring r "OK RESET" = true →
      PicsController.connect bootLines
          (List.replicate N (ReadResult.line "") ++ ReadResult.line r :: rest) =
        Except.ok
          { ser := { is_open := true, reads := rest,
                     writes := List.replicate (N + 1) "98000\n",
                     sleeps := (List.range N).map (fun i => 200 * 2 ^ i) },
            is_connected := true, last_state := SafetyState.Armed }) ∧
    (∀ (bootLines : List String) (N : Nat) (r : String) (rest : List ReadResult),
      bootLines.contains "READY" = false → N < MAX_RETRIES → r ≠ "" →
      containsSubstring r "OK RESET" = false →
      PicsController.connect bootLines
          (List.replicate N (ReadResult.line "") ++ ReadResult.line r :: rest) =
        Except.error ("Failed to connect. Response to RESET: " ++ r)) ∧
    (∀ (bootLines : List String) (N : Nat) (msg : String) (rest : List ReadResult),
      bootLines.contains "READY" = false → N < MAX_RETRIES →
      containsSubstring ("ERR EXCEPTION " ++ msg) "OK RESET" = false →
      PicsController.connect bootLines
          (List.replicate N (ReadResult.line "") ++ ReadResult.ioError msg :: rest) =
        Except.error ("Failed to connect. Response to RESET: ERR EXCEPTION " ++ msg)) ∧
    (∀ (bootLines : List String) (rest : List ReadResult),
      bootLines.contains "READY" = false →
      PicsController.connect bootLines
          (List.replicate MAX_RETRIES (ReadResult.line "") ++ rest) =
        Except.error "Failed to connect. Response to RESET: ERR TIMEOUT") := by
  refine ⟨?_, ?_, ?_, ?_, ?_⟩
  · intro bootLines script hb
    unfold PicsController.connect
    rw [if_pos hb]
  · intro bootLines N r rest hb hlt hr hack
    unfold PicsController.connect
    rw [if_neg (by rw [hb]; exact Bool.false_ne_true)]
    rw [send_raw_response CMD_RESET 0 MAX_RETRIES N r rest
      { is_open := true,
        reads := List.replicate N (ReadResult.line "") ++ ReadResult.line r :: rest,
        writes := [], sleeps := [] } rfl hlt hr rfl]
    simp only [hack, if_true]
    have hfmt : format_command CMD_RESET 0 ++ "\n" = "98000\n" := by decide
    rw [hfmt]
    simp
  · intro bootLines N r rest hb hlt hr hnack
    unfold PicsController.connect
    rw [if_neg (by rw [hb]; exact Bool.false_ne_true)]
    rw [send_raw_response CMD_RESET 0 MAX_RETRIES N r rest
      { is_open := true,
        reads := List.replicate N (ReadResult.line "") ++ ReadResult.line r :: rest,
        writes := [], sleeps := [] } rfl hlt hr rfl]
    simp only [hnack, Bool.false_eq_true, if_false]
  · intro bootLines N msg rest hb hlt hnack
    unfold PicsController.connect
    rw [if_neg (by rw [hb]; exact Bool.false_ne_true)]
    rw [send_raw_exception CMD_RESET 0 MAX_RETRIES N msg rest
      { is_open := true,
        reads := List.replicate N (ReadResult.line "") ++ ReadResult.ioError msg :: rest,
        writes := [], sleeps := [] } rfl hlt rfl]
    simp only [hnack, Bool.false_eq_true, if_false]
    rw [← String.append_assoc]
    rw [show ("Failed to connect. Response to RESET: " ++ "ERR EXCEPTION " : String) =
        "Failed to connect. Response to RESET: ERR EXCEPTION " from by decide]
  · intro bootLines rest hb
    unfold PicsController.connect
    rw [if_neg (by rw [hb]; exact Bool.false_ne_true)]
    rw [send_raw_timeout CMD_RESET 0 MAX_RETRIES rest
      { is_open := true,
        reads := List.replicate MAX_RETRIES (ReadResult.line "") ++ rest,
        writes := [], sleeps := [] } rfl rfl]
    rfl

/-- Witness for C6 (amended): the five handshake outcomes at concrete
inputs — boot message, acknowledged RESET, rejected RESET, serial I/O
exception during RESET, and exhausted retries. -/
theorem connect_handshake_witness :
    PicsController.connect ["READY"] [] =
      Except.ok
        { ser := { is_open := true, reads := [], writes := [], sleeps := [] },
          is_connected := true, last_state := SafetyState.Latched } ∧
    PicsController.connect [] [ReadResult.line "OK RESET"] =
      Except.ok
        { ser := { is_open := true, reads := [], writes := ["98000\n"], sleeps := [] },
          is_connected := true, last_state := SafetyState.Armed } ∧
    PicsController.connect [] [ReadResult.line "ERR NOPE"] =
      Except.error "Failed to connect. Response to RESET: ERR NOPE" ∧
    PicsController.connect [] [ReadResult.ioError "device unplugged"] =
      Except.error "Failed to connect. Response to RESET: ERR EXCEPTION device unplugged" ∧
    PicsController.connect [] [ReadResult.line "", ReadResult.line "", ReadResult.line ""] =
      Except.error "Failed to connect. Response to RESET: ERR TIMEOUT" :=
  ⟨connect_handshake.1 ["READY"] [] rfl,
   connect_handshake.2.1 [] 0 "OK RESET" [] rfl (by decide) (by decide) (by decide),
   connect_handshake.2.2.1 [] 0 "ERR NOPE" [] rfl (by decide) (by decide) (by decide),
   connect_handshake.2.2.2.1 [] 0 "device unplugged" [] rfl (by decide) (by decide),
   connect_handshake.2.2.2.2 [] [] rfl⟩

/-- A decimal digit character for `d < 10` is an ASCII digit. -/
theorem digitChar_isDigit (d : Nat) (h : d < 10) : (Nat.digitChar d).isDigit = true := by
  interval_cases d <;> decide

/-- Decoding a decimal digit character recovers its value. -/
theorem digitVal_digitChar (d : Nat) (h : d < 10) : digitVal (Nat.digitChar d) = d := by
  interval_cases d <;> decide

/-- Accumulator decoder over an append. -/
theorem valOfDigitsAux_append (xs ys : List Char) :
    ∀ acc, valOfDigitsAux acc (xs ++ ys) = valOfDigitsAux (valOfDigitsAux acc xs) ys := by
  induction xs with
  | nil => intro acc; rfl
  | cons c cs ih => intro acc; exact ih (10 * acc + digitVal c)

/-- `natDigitsCore` produces at most `k + 1` digits for `n < 10 ^ (k + 1)`. -/
theorem natDigitsCore_length (k : Nat) :
    ∀ (fuel n : Nat), n < fuel → n < 10 ^ (k + 1) →
      (natDigitsCore fuel n).length ≤ k + 1 := by
  induction k with
  | zero =>
    intro fuel n hf hk
    obtain ⟨f, rfl⟩ : ∃ f, fuel = f + 1 := ⟨fuel - 1, by omega⟩
    have h10 : n < 10 := by simpa using hk
    simp [natDigitsCore, h10]
  | succ k ih =>
    intro fuel n hf hk
    obtain ⟨f, rfl⟩ : ∃ f, fuel = f + 1 := ⟨fuel - 1, by omega⟩
    by_cases h10 : n < 10
    · simp [natDigitsCore, h10]
    · have hdivf : n / 10 < f := by
        have := Nat.div_lt_self (by omega : 0 < n) (by omega : 1 < 10)
        omega
      have hdivk : n / 10 < 10 ^ (k + 1) := by
        have hmul : n < 10 * 10 ^ (k + 1) := by
          calc n < 10 ^ (k + 1 + 1) := hk
          _ = 10 * 10 ^ (k + 1) := by ring
        exact Nat.div_lt_of_lt_mul hmul
      simp only [natDigitsCore, h10, if_false, List.length_append, List.length_cons,
        List.length_nil]
      have := ih f (n / 10) hdivf hdivk
      omega

/-- `natDigitsCore` produces at least one digit when given fuel. -/
theorem natDigitsCore_length_pos (fuel n : Nat) (hf : n < fuel) :
    0 < (natDigitsCore fuel n).length := by
  obtain ⟨f, rfl⟩ : ∃ f, fuel = f + 1 := ⟨fuel - 1, by omega⟩
  by_cases h10 : n < 10 <;> simp [natDigitsCore, h10]

/-- Decoding the digits of `n` recovers `n`. -/
theorem valOfDigits_natDigitsCore (fuel : Nat) :
    ∀ n : Nat, n < fuel → valOfDigits (natDigitsCore fuel n) = n := by
  induction fuel with
  | zero => intro n hf; omega
  | succ fuel ih =>
    intro n hf
    by_cases h10 : n < 10
    · rw [show natDigitsCore (fuel + 1) n = [Nat.digitChar n] from by
        simp [natDigitsCore, h10]]
      show valOfDigitsAux (10 * 0 + digitVal (Nat.digitChar n)) [] = n
      rw [digitVal_digitChar n h10]
      show 10 * 0 + n = n
      omega
    · have hdivf : n / 10 < fuel := by
        have := Nat.div_lt_self (by omega : 0 < n) (by omega : 1 < 10)
        omega
      have ihv := ih (n / 10) hdivf
      rw [show natDigitsCore (fuel + 1) n =
          natDigitsCore fuel (n / 10) ++ [Nat.digitChar (n % 10)] from by
        simp [natDigitsCore, h10]]
      show valOfDigitsAux 0 (natDigitsCore fuel (n / 10) ++ [Nat.digitChar (n % 10)]) = n
      rw [valOfDigitsAux_append]
      rw [show valOfDigitsAux 0 (natDigitsCore fuel (n / 10)) = n / 10 from ihv]
      show 10 * (n / 10) + digitVal (Nat.digitChar (n % 10)) = n
      rw [digitVal_digitChar (n % 10) (Nat.mod_lt n (by omega))]
      omega

/-- Every character `natDigitsCore` produces is an ASCII digit. -/
theorem natDigitsCore_digits :
    ∀ (fuel n : Nat) (c : Char), c ∈ natDigitsCore fuel n → c.isDigit = true
  | 0, n, c, hc => absurd hc (by simp [natDigitsCore])
  | fuel + 1, n, c, hc => by
    by_cases h10 : n < 10
    · simp only [natDigitsCore, h10, if_true, List.mem_singleton] at hc
      exact hc ▸ digitChar_isDigit n h10
    · simp only [natDigitsCore, h10, if_false, List.mem_append, List.mem_singleton] at hc
      rcases hc with hc | hc
      · exact natDigitsCore_digits fuel (n / 10) c hc
      · exact hc ▸ digitChar_isDigit (n % 10) (Nat.mod_lt n (by omega))

/-- Leading zeros do not change the decoded value. -/
theorem valOfDigitsAux_zeros (k : Nat) :
    ∀ ds : List Char, valOfDigitsAux 0 (List.replicate k '0' ++ ds) = valOfDigitsAux 0 ds := by
  induction k with
  | zero => intro ds; rfl
  | succ k ih =>
    intro ds
    rw [List.replicate_succ, List.cons_append]
    show valOfDigitsAux (10 * 0 + digitVal '0') (List.replicate k '0' ++ ds) = _
    exact ih ds

/-- Padded-digit lists: length, digit-ness, value. -/
theorem padZeros_spec (w : Nat) (ds : List Char) (hlen : ds.length ≤ w)
    (hds : ∀ c ∈ ds, c.isDigit = true) :
    (padZeros w ds).length = w ∧
    (∀ c ∈ padZeros w ds, c.isDigit = true) ∧
    valOfDigits (padZeros w ds) = valOfDigits ds := by
  refine ⟨by simp [padZeros]; omega, ?_, valOfDigitsAux_zeros (w - ds.length) ds⟩
  intro c hc
  rcases List.mem_append.mp hc with hc | hc
  · rw [List.eq_of_mem_replicate hc]; decide
  · exact hds c hc

/-- Counterexample to C9 as stated: `format_command` performs no range
validation — for the out-of-range code 100 it does not fail with an
invalid-argument error but returns the 6-character string "100000". -/
theorem format_command_no_validation :
    format_command 100 0 = "100000" ∧ (format_command 100 0).data.length ≠ 5 := by
  decide

/-- Claim C9 (amended): for every in-range pair (`code ≤ 99`,
`arg ≤ 999`), `format_command` returns exactly 5 ASCII digits — the
2-digit zero-padded code followed by the 3-digit zero-padded argument,
in the sense that the first two digits decode to `code` and the last
three decode to `arg`.  Out-of-range inputs are not rejected: the
function performs no validation and simply returns a longer string
(see the counterexample). -/
theorem format_command_shape (pp aaa : Nat) (hpp : pp ≤ 99) (haaa : aaa ≤ 999) :
    (format_command pp aaa).data.length = 5 ∧
    (∀ c ∈ (format_command pp aaa).data, c.isDigit = true) ∧
    valOfDigits ((format_command pp aaa).data.take 2) = pp ∧
    valOfDigits ((format_command pp aaa).data.drop 2) = aaa := by
  have hlp : (natDigits pp).length ≤ 2 :=
    natDigitsCore_length 1 (pp + 1) pp (by omega) (by norm_num; omega)
  have hla : (natDigits aaa).length ≤ 3 :=
    natDigitsCore_length 2 (aaa + 1) aaa (by omega) (by norm_num; omega)
  have hdp : ∀ c ∈ natDigits pp, c.isDigit = true :=
    fun c hc => natDigitsCore_digits (pp + 1) pp c hc
  have hda : ∀ c ∈ natDigits aaa, c.isDigit = true :=
    fun c hc => natDigitsCore_digits (aaa + 1) aaa c hc
  have hvp : valOfDigits (natDigits pp) = pp := valOfDigits_natDigitsCore (pp + 1) pp (by omega)
  have hva : valOfDigits (natDigits aaa) = aaa := valOfDigits_natDigitsCore (aaa + 1) aaa (by omega)
  obtain ⟨hl2, hd2, hv2⟩ := padZeros_spec 2 (natDigits pp) hlp hdp
  obtain ⟨hl3, hd3, hv3⟩ := padZeros_spec 3 (natDigits aaa) hla hda
  have hdata : (format_command pp aaa).data =
      padZeros 2 (natDigits pp) ++ padZeros 3 (natDigits aaa) := rfl
  refine ⟨?_, ?_, ?_, ?_⟩
  · rw [hdata, List.length_append, hl2, hl3]
  · rw [hdata]
    intro c hc
    rcases List.mem_append.mp hc with hc | hc
    · exact hd2 c hc
    · exact hd3 c hc
  · rw [hdata, List.take_left' hl2, hv2, hvp]
  · rw [hdata, List.drop_left' hl2, hv3, hva]

/-- Witness for C9 (amended): the token for (10, 90). -/
theorem format_command_shape_witness :
    (format_command 10 90).data.length = 5 ∧
    (∀ c ∈ (format_command 10 90).data, c.isDigit = true) ∧
    valOfDigits ((format_command 10 90).data.take 2) = 10 ∧
    valOfDigits ((format_command 10 90).data.drop 2) = 90 :=
  format_command_shape 10 90 (by decide) (by decide)

namespace PicsSequence

/-- Claim C1: for every run of the orchestrator (with at least one mode
enabled, so the run proper starts), if the run ends with a failure
other than the controlled abort — i.e. an exception propagates to the
caller — then the run terminated in `Failed` and `emergency_stop()` was
issued on the controller before the failure was re-signaled: the trace
ends with the ESTOP command followed only by the `finally` live-view
resume. -/
theorem run_failure_emergency_stops (env : SeqEnv) (cx nrm : Nat)
    (sa : Option (List Nat)) (doC doN connected : Bool) (msg : String)
    (hmodes : (doC || doN) = true)
    (h : (run_sequence env cx nrm sa doC doN connected).raised = some msg) :
    (run_sequence env cx nrm sa doC doN connected).term = TermState.failed msg ∧
    ∃ (pre : List SeqEvent) (ok : Bool),
      (run_sequence env cx nrm sa doC doN connected).events =
        pre ++ [SeqEvent.cmdEstop ok, SeqEvent.resumeLive] := by
  unfold run_sequence at h ⊢
  simp only [hmodes, Bool.not_true, Bool.false_eq_true, if_false] at h ⊢
  split at h
  next s heq => simp at h
  next s m heq => simp at h
  next s m heq =>
    simp only [Option.some.injEq] at h
    subst h
    refine ⟨rfl, s.events, s.env.cmdResult s.cmdIdx, ?_⟩
    simp [seqCmd, emitEvent]

/-- Witness for C1: a run whose RESET is rejected ends Failed with the
emergency stop issued before the error propagates. -/
theorem run_failure_emergency_stops_witness :
    (run_sequence failingCmdEnv 1 2 (some [45]) true false true).term =
      TermState.failed "Failed to ARM system (RESET command failed)." ∧
    ∃ (pre : List SeqEvent) (ok : Bool),
      (run_sequence failingCmdEnv 1 2 (some [45]) true false true).events =
        pre ++ [SeqEvent.cmdEstop ok, SeqEvent.resumeLive] :=
  run_failure_emergency_stops failingCmdEnv 1 2 (some [45]) true false true
    "Failed to ARM system (RESET command failed)." rfl rfl

/-- Claim C2, evaluated at the failing input (see RESULTS): an abort
requested during a run does terminate it in `Aborted`, with no
emergency stop and exactly one live-view resume — but `run_sequence`
catches the `InterruptedError` and returns normally, so nothing
propagates to the caller (`raised = none`), contradicting the claim
that the abort propagates as a distinct recoverable signal (the
`except InterruptedError` handler of `SequenceThread.run` in
`app/workers.py` is dead code). -/
theorem abort_swallowed_not_propagated :
    run_sequence abortRequestedEnv 5 7 (some [45]) true true true =
      { events := [SeqEvent.stopLive, SeqEvent.cmdReset true, SeqEvent.setExposure 5,
                   SeqEvent.cmdPolarizer 90 true, SeqEvent.resumeLive],
        term := TermState.aborted, raised := none } ∧
    (run_sequence abortRequestedEnv 5 7 (some [45]) true true true).events.countP
      isEstopEv = 0 ∧
    (run_sequence abortRequestedEnv 5 7 (some [45]) true true true).events.countP
      isResumeEv = 1 := by
  refine ⟨rfl, ?_, ?_⟩ <;> decide

/-- One Crosspol angle iteration under the all-success oracle: four
events, one command, one capture, two abort observations. -/
theorem crosspolAngleStep_allOk (a : Nat) (s : SeqState) (h : s.env = allOkEnv) :
    crosspolAngleStep a s =
      ({ s with
         cmdIdx := s.cmdIdx + 1, capIdx := s.capIdx + 1, checks := s.checks + 2,
         events := s.events ++ crosspolBlock a }, none) := by
  obtain ⟨e, ci, cp, ch, ev⟩ := s
  simp only at h
  subst h
  simp [crosspolAngleStep, seqThen, checkAbort, abortObserved, allOkEnv, seqCmd, emitEvent,
    wait_settling, camCapture, crosspolBlock]

/-- One Normal angle iteration under the all-success oracle. -/
theorem normalAngleStep_allOk (a : Nat) (s : SeqState) (h : s.env = allOkEnv) :
    normalAngleStep a s =
      ({ s with
         cmdIdx := s.cmdIdx + 1, capIdx := s.capIdx + 1, checks := s.checks + 2,
         events := s.events ++ normalBlock a }, none) := by
  obtain ⟨e, ci, cp, ch, ev⟩ := s
  simp only at h
  subst h
  simp [normalAngleStep, seqThen, checkAbort, abortObserved, allOkEnv, seqCmd, emitEvent,
    wait_settling, camCapture, normalBlock]

/-- The Crosspol angle loop under the all-success oracle. -/
theorem runAngles_crosspol_allOk (angles : List Nat) :
    ∀ s : SeqState, s.env = allOkEnv →
    runAngles crosspolAngleStep angles s =
      ({ s with
         cmdIdx := s.cmdIdx + angles.length, capIdx := s.capIdx + angles.length,
         checks := s.checks + 2 * angles.length,
         events := s.events ++ angles.flatMap crosspolBlock }, none) := by
  induction angles with
  | nil => intro s h; simp [runAngles]
  | cons a rest ih =>
    intro s h
    rw [show runAngles crosspolAngleStep (a :: rest) s =
        seqThen (crosspolAngleStep a s) (runAngles crosspolAngleStep rest) from rfl]
    rw [crosspolAngleStep_allOk a s h]
    show runAngles crosspolAngleStep rest _ = _
    rw [ih _ (by simp [h])]
    obtain ⟨e, ci, cp, ch, ev⟩ := s
    simp [List.flatMap_cons, List.append_assoc]
    try omega

/-- The Normal angle loop under the all-success oracle. -/
theorem runAngles_normal_allOk (angles : List Nat) :
    ∀ s : SeqState, s.env = allOkEnv →
    runAngles normalAngleStep angles s =
      ({ s with
         cmdIdx := s.cmdIdx + angles.length, capIdx := s.capIdx + angles.length,
         checks := s.checks + 2 * angles.length,
         events := s.events ++ angles.flatMap normalBlock }, none) := by
  induction angles with
  | nil => intro s h; simp [runAngles]
  | cons a rest ih =>
    intro s h
    rw [show runAngles normalAngleStep (a :: rest) s =
        seqThen (normalAngleStep a s) (runAngles normalAngleStep rest) from rfl]
    rw [normalAngleStep_allOk a s h]
    show runAngles normalAngleStep rest _ = _
    rw [ih _ (by simp [h])]
    obtain ⟨e, ci, cp, ch, ev⟩ := s
    simp [List.flatMap_cons, List.append_assoc]
    try omega

end PicsSequence

namespace PicsSequence

/-- The Crosspol phase under the all-success oracle. -/
theorem crosspolPhase_allOk (cx : Nat) (angles : List Nat) (s : SeqState)
    (h : s.env = allOkEnv) :
    crosspolPhase cx angles s =
      ({ s with
         cmdIdx := s.cmdIdx + (1 + angles.length),
         capIdx := s.capIdx + angles.length,
         checks := s.checks + (1 + 2 * angles.length),
         events := s.events ++ [SeqEvent.setExposure cx, SeqEvent.cmdPolarizer 90 true]
           ++ angles.flatMap crosspolBlock }, none) := by
  obtain ⟨e, ci, cp, ch, ev⟩ := s
  simp only at h
  subst h
  rw [show crosspolPhase cx angles ⟨allOkEnv, ci, cp, ch, ev⟩ =
      runAngles crosspolAngleStep angles
        ⟨allOkEnv, ci + 1, cp, ch + 1,
         ev ++ [SeqEvent.setExposure cx, SeqEvent.cmdPolarizer 90 true]⟩ from by
    simp [crosspolPhase, emitEvent, seqCmd, allOkEnv, wait_settling, checkAbort,
      abortObserved, seqThen]]
  rw [runAngles_crosspol_allOk angles
    ⟨allOkEnv, ci + 1, cp, ch + 1,
     ev ++ [SeqEvent.setExposure cx, SeqEvent.cmdPolarizer 90 true]⟩ rfl]
  simp [List.append_assoc]
  try omega

/-- The Normal phase under the all-success oracle. -/
theorem normalPhase_allOk (nrm : Nat) (angles : List Nat) (s : SeqState)
    (h : s.env = allOkEnv) :
    normalPhase nrm angles s =
      ({ s with
         cmdIdx := s.cmdIdx + (1 + angles.length),
         capIdx := s.capIdx + angles.length,
         checks := s.checks + (1 + 2 * angles.length),
         events := s.events ++ [SeqEvent.setExposure nrm, SeqEvent.cmdPolarizer 0 true]
           ++ angles.flatMap normalBlock }, none) := by
  obtain ⟨e, ci, cp, ch, ev⟩ := s
  simp only at h
  subst h
  rw [show normalPhase nrm angles ⟨allOkEnv, ci, cp, ch, ev⟩ =
      runAngles normalAngleStep angles
        ⟨allOkEnv, ci + 1, cp, ch + 1,
         ev ++ [SeqEvent.setExposure nrm, SeqEvent.cmdPolarizer 0 true]⟩ from by
    simp [normalPhase, emitEvent, seqCmd, allOkEnv, wait_settling, checkAbort,
      abortObserved, seqThen]]
  rw [runAngles_normal_allOk angles
    ⟨allOkEnv, ci + 1, cp, ch + 1,
     ev ++ [SeqEvent.setExposure nrm, SeqEvent.cmdPolarizer 0 true]⟩ rfl]
  simp [List.append_assoc]
  try omega

/-- The whole `try`-block body under the all-success oracle. -/
theorem run_body_allOk (cx nrm : Nat) (angles : List Nat) :
    run_body cx nrm angles true true true
      { env := allOkEnv, cmdIdx := 0, capIdx := 0, checks := 0, events := [] } =
      ({ env := allOkEnv,
         cmdIdx := 2 * angles.length + 4,
         capIdx := 2 * angles.length,
         checks := 4 * angles.length + 2,
         events := [SeqEvent.stopLive, SeqEvent.cmdReset true,
             SeqEvent.setExposure cx, SeqEvent.cmdPolarizer 90 true]
           ++ angles.flatMap crosspolBlock
           ++ [SeqEvent.setExposure nrm, SeqEvent.cmdPolarizer 0 true]
           ++ angles.flatMap normalBlock
           ++ [SeqEvent.cmdHome true] }, none) := by
  rw [show run_body cx nrm angles true true true
      { env := allOkEnv, cmdIdx := 0, capIdx := 0, checks := 0, events := [] } =
      seqThen (crosspolPhase cx angles
        ⟨allOkEnv, 1, 0, 0, [SeqEvent.stopLive, SeqEvent.cmdReset true]⟩)
        (fun s => seqThen (normalPhase nrm angles s) fun s =>
          ((seqCmd SeqEvent.cmdHome s).2, none)) from by
    simp [run_body, emitEvent, seqCmd, allOkEnv, seqThen]]
  rw [crosspolPhase_allOk cx angles
    ⟨allOkEnv, 1, 0, 0, [SeqEvent.stopLive, SeqEvent.cmdReset true]⟩ rfl]
  show seqThen (normalPhase nrm angles _) _ = _
  rw [normalPhase_allOk nrm angles _ rfl]
  show ((seqCmd SeqEvent.cmdHome _).2, none) = _
  simp [seqCmd, emitEvent, allOkEnv, List.append_assoc]
  try omega

end PicsSequence

namespace PicsSequence

/-- Counting over a flat-mapped trace when every block contains exactly
one matching event. -/
theorem countP_flatMap_one (p : SeqEvent → Bool) (f : Nat → List SeqEvent)
    (hf : ∀ a, (f a).countP p = 1) :
    ∀ l : List Nat, (l.flatMap f).countP p = l.length := by
  intro l
  induction l with
  | nil => rfl
  | cons a rest ih =>
    rw [List.flatMap_cons, List.countP_append, hf a, ih]
    simp [Nat.add_comm]

/-- Claim C7: a run with both modes enabled and `N` configured angles,
in which every command and capture succeeds, produces exactly the
expected trace — polarizer to 90, then every Crosspol angle in
configured order, polarizer to 0, then every Normal angle in configured
order — and in particular exactly `2N` capture events and `2N` log
events, ending in `Done`. -/
theorem sequence_all_success (cx nrm : Nat) (angles : List Nat) :
    run_sequence allOkEnv cx nrm (some angles) true true true =
      { events := expectedTrace cx nrm angles, term := TermState.done, raised := none } ∧
    (run_sequence allOkEnv cx nrm (some angles) true true true).events.countP isCaptureEv =
      2 * angles.length ∧
    (run_sequence allOkEnv cx nrm (some angles) true true true).events.countP isLogEv =
      2 * angles.length := by
  have hrun : run_sequence allOkEnv cx nrm (some angles) true true true =
      { events := expectedTrace cx nrm angles, term := TermState.done, raised := none } := by
    unfold run_sequence
    simp only [Option.getD_some, Bool.or_self, Bool.not_true, Bool.false_eq_true, if_false]
    rw [run_body_allOk cx nrm angles]
    simp [emitEvent, expectedTrace, List.append_assoc]
  have hcap1 : (angles.flatMap crosspolBlock).countP isCaptureEv = angles.length :=
    countP_flatMap_one isCaptureEv crosspolBlock (fun a => rfl) angles
  have hcap2 : (angles.flatMap normalBlock).countP isCaptureEv = angles.length :=
    countP_flatMap_one isCaptureEv normalBlock (fun a => rfl) angles
  have hlog1 : (angles.flatMap crosspolBlock).countP isLogEv = angles.length :=
    countP_flatMap_one isLogEv crosspolBlock (fun a => rfl) angles
  have hlog2 : (angles.flatMap normalBlock).countP isLogEv = angles.length :=
    countP_flatMap_one isLogEv normalBlock (fun a => rfl) angles
  refine ⟨hrun, ?_, ?_⟩
  · rw [hrun]
    show (expectedTrace cx nrm angles).countP isCaptureEv = 2 * angles.length
    simp [expectedTrace, List.countP_append, List.countP_cons, hcap1, hcap2, isCaptureEv]
    omega
  · rw [hrun]
    show (expectedTrace cx nrm angles).countP isLogEv = 2 * angles.length
    simp [expectedTrace, List.countP_append, List.countP_cons, hlog1, hlog2, isLogEv]
    omega

end PicsSequence

namespace PicsSequence

/-- Counterexample to C8 as stated: in a Normal-phase-only run the
first sample-move failure is immediately fatal — no retry happens even
though the very next command result (which a retry would consume) is a
success. -/
theorem normal_phase_no_retry :
    run_sequence normalMoveFailEnv 5 7 (some [45]) false true true =
      { events := [SeqEvent.stopLive, SeqEvent.cmdReset true, SeqEvent.setExposure 7,
                   SeqEvent.cmdPolarizer 0 true, SeqEvent.cmdSample 45 false,
                   SeqEvent.cmdEstop true, SeqEvent.resumeLive],
        term := TermState.failed "Failed moving sample to 45",
        raised := some "Failed moving sample to 45" } ∧
    normalMoveFailEnv.cmdResult 3 = true :=
  ⟨rfl, rfl⟩

/-- Claim C8 (amended): the retry behaviour is asymmetric between the
phases.  In the Crosspol phase a failed sample move is retried exactly
once — the step succeeds when the retry succeeds, and only a second
consecutive failure of the same move is fatal.  In the Normal phase
there is no retry: a single sample-move failure is immediately fatal to
the run. -/
theorem sample_move_retry_asymmetry :
    (∀ (angle img : Nat) (s : SeqState),
      s.env.abortAt = none →
      s.env.cmdResult s.cmdIdx = false →
      s.env.cmdResult (s.cmdIdx + 1) = true →
      s.env.captureResult s.capIdx = Except.ok img →
      crosspolAngleStep angle s =
        ({ s with
           cmdIdx := s.cmdIdx + 2, capIdx := s.capIdx + 1, checks := s.checks + 2,
           events := s.events ++
             [SeqEvent.cmdSample angle false, SeqEvent.cmdSample angle true,
              SeqEvent.capture img, SeqEvent.saveImage "crosspol" angle,
              SeqEvent.logRecord "crosspol" angle] }, none)) ∧
    (∀ (angle : Nat) (s : SeqState),
      s.env.abortAt = none →
      s.env.cmdResult s.cmdIdx = false →
      s.env.cmdResult (s.cmdIdx + 1) = false →
      crosspolAngleStep angle s =
        ({ s with
           cmdIdx := s.cmdIdx + 2, checks := s.checks + 1,
           events := s.events ++
             [SeqEvent.cmdSample angle false, SeqEvent.cmdSample angle false] },
         some (SeqError.runtimeError ("Failed moving sample to " ++ toString angle)))) ∧
    (∀ (angle : Nat) (s : SeqState),
      s.env.abortAt = none →
      s.env.cmdResult s.cmdIdx = false →
      normalAngleStep angle s =
        ({ s with
           cmdIdx := s.cmdIdx + 1, checks := s.checks + 1,
           events := s.events ++ [SeqEvent.cmdSample angle false] },
         some (SeqError.runtimeError ("Failed moving sample to " ++ toString angle)))) := by
  refine ⟨?_, ?_, ?_⟩
  · intro angle img s hab h1 h2 hcap
    obtain ⟨⟨cr, capr, ab⟩, ci, cp, ch, ev⟩ := s
    simp only at hab h1 h2 hcap
    subst hab
    simp [crosspolAngleStep, seqThen, checkAbort, abortObserved, seqCmd, emitEvent,
      wait_settling, camCapture, h1, h2, hcap]
    try omega
  · intro angle s hab h1 h2
    obtain ⟨⟨cr, capr, ab⟩, ci, cp, ch, ev⟩ := s
    simp only at hab h1 h2
    subst hab
    simp [crosspolAngleStep, seqThen, checkAbort, abortObserved, seqCmd, emitEvent,
      wait_settling, camCapture, h1, h2]
    try omega
  · intro angle s hab h1
    obtain ⟨⟨cr, capr, ab⟩, ci, cp, ch, ev⟩ := s
    simp only at hab h1
    subst hab
    simp [normalAngleStep, seqThen, checkAbort, abortObserved, seqCmd, emitEvent,
      wait_settling, camCapture, h1]
    try omega

/-- Witness for C8 (amended): the three behaviours at a concrete state
whose command oracle fails at index 0 and succeeds from index 1, and a
second state failing at indices 0 and 1. -/
theorem sample_move_retry_asymmetry_witness :
    crosspolAngleStep 45
      { env := { cmdResult := fun i => i != 0, captureResult := fun _ => Except.ok 3,
                 abortAt := none },
        cmdIdx := 0, capIdx := 0, checks := 0, events := [] } =
      ({ env := { cmdResult := fun i => i != 0, captureResult := fun _ => Except.ok 3,
                  abortAt := none },
         cmdIdx := 2, capIdx := 1, checks := 2,
         events := [SeqEvent.cmdSample 45 false, SeqEvent.cmdSample 45 true,
                    SeqEvent.capture 3, SeqEvent.saveImage "crosspol" 45,
                    SeqEvent.logRecord "crosspol" 45] }, none) ∧
    crosspolAngleStep 45
      { env := { cmdResult := fun i => 2 ≤ i, captureResult := fun _ => Except.ok 3,
                 abortAt := none },
        cmdIdx := 0, capIdx := 0, checks := 0, events := [] } =
      ({ env := { cmdResult := fun i => 2 ≤ i, captureResult := fun _ => Except.ok 3,
                  abortAt := none },
         cmdIdx := 2, checks := 1,
         events := [SeqEvent.cmdSample 45 false, SeqEvent.cmdSample 45 false],
         capIdx := 0 },
       some (SeqError.runtimeError "Failed moving sample to 45")) ∧
    normalAngleStep 45
      { env := { cmdResult := fun i => i != 0, captureResult := fun _ => Except.ok 3,
                 abortAt := none },
        cmdIdx := 0, capIdx := 0, checks := 0, events := [] } =
      ({ env := { cmdResult := fun i => i != 0, captureResult := fun _ => Except.ok 3,
                  abortAt := none },
         cmdIdx := 1, checks := 1, events := [SeqEvent.cmdSample 45 false], capIdx := 0 },
       some (SeqError.runtimeError "Failed moving sample to 45")) :=
  ⟨sample_move_retry_asymmetry.1 45 3 _ rfl rfl rfl rfl,
   sample_move_retry_asymmetry.2.1 45 _ rfl rfl rfl,
   sample_move_retry_asymmetry.2.2 45 _ rfl rfl⟩

end PicsSequence
